import Mathlib

/-!
Verification model of the PDFMathTranslate-next API server core.

The development shallowly embeds the task registry, the translation
orchestrator and the file registry of `src/api_server.py`, together with
the content-addressed object-storage client of
`src/pdf2zh_next/storage.py`.

Python dictionaries are modelled as association lists with dict-style
lookup, replace-or-append assignment, and key deletion.  Exceptions are
modelled with `Except`.  The external translation engine
(`do_translate_async_stream`) is, as in the design, an opaque
collaborator: its emitted event sequence is an input of the model.  The
single-threaded cooperative scheduler means every code section that does
not suspend (no `await`) is atomic with respect to the HTTP handlers;
event processing steps are modelled accordingly.
-/

deriving instance DecidableEq for Except

/-- Python dict lookup (`d.get(k)` / `k in d`). -/
def lookupD {α : Type} : List (String × α) → String → Option α
  | [], _ => none
  | (k', v) :: rest, k => if k' = k then some v else lookupD rest k

/-- Python dict assignment `d[k] = v`: replace the binding if the key is
present, otherwise append a new binding. -/
def dictInsert {α : Type} : List (String × α) → String → α → List (String × α)
  | [], k, v => [(k, v)]
  | (k', v') :: rest, k, v =>
    if k' = k then (k, v) :: rest else (k', v') :: dictInsert rest k v

/-- Python dict deletion `del d[k]`. -/
def removeKey {α : Type} (m : List (String × α)) (k : String) : List (String × α) :=
  m.filter (fun p => decide (p.1 ≠ k))

/-- The keys of the association list are pairwise distinct (every Python
dict satisfies this). -/
def nodupKeys {α : Type} (m : List (String × α)) : Prop :=
  (m.map Prod.fst).Nodup

/-- An HTTP error response (`fastapi.HTTPException`). -/
structure HErr where
  status : Nat
  detail : String
deriving DecidableEq

/-! ## Object storage client — src/pdf2zh_next/storage.py -/

/-- `StorageConfig` (storage.py line 18): environment-sourced switches. -/
structure StorageCfg where
  enabled : Bool
  api_base_url : String
  auth_token : String

/-- `PresignedUrlResponse` (storage.py line 27). -/
structure PresignedResp where
  presigned_url : String
  key : String
  expires_at : Nat
  access_url : String
  access_expires_at : Nat
deriving DecidableEq

/-- The record returned by `upload_pdf_with_hash` and cached in
`_storage_cache` (storage.py lines 131-137).  The wall-clock
`upload_time` metadata field is omitted from the model. -/
structure StorageUploadResult where
  file_hash : String
  storage_key : String
  access_url : String
  access_expires_at : Nat
deriving DecidableEq

/-- A local file as the storage client sees it: `Path.stem`,
`Path.suffix` and the byte content. -/
structure FileData where
  stem : String
  ext : String
  content : List Nat

/-- A network request issued by the storage client: the credential
negotiation POST or the artifact PUT. -/
inductive NetCall where
  | presignReq (filename : String)
  | putReq (url : String)
deriving DecidableEq

/-- The remote storage endpoint, as an environment: the outcome of the
presigned-URL POST for a given filename and of the PUT to a given URL.
An `Except.error` models a raised exception (non-2xx response or API
error, storage.py lines 78-84 and 103-105). -/
structure NetEnv where
  presign : String → Except String PresignedResp
  put : String → Except String Unit

/-- `ObjectStorageClient._calculate_file_hash` (storage.py lines 59-65):
SHA256 over the file bytes, streamed in 4096-byte blocks.  Reading in
blocks and hashing is a function of the byte content only, so the model
abstracts the digest as an arbitrary function `hashFn` of the content;
every theorem below holds for every such function, in particular for
SHA256. -/
def calculate_file_hash (hashFn : List Nat → String) (f : FileData) : String :=
  hashFn f.content

/-- The digest-qualified filename `f"{original_name}_{file_hash[:8]}{extension}"`
built by `upload_pdf_with_hash` (storage.py line 121). -/
def hashFilename (f : FileData) (fileHash : String) : String :=
  f.stem ++ "_" ++ (fileHash.take 8) ++ f.ext

/-- `ObjectStorageClient.upload_pdf_with_hash` (storage.py lines 107-137):
hash, negotiate a presigned URL for the digest-qualified name, PUT the
bytes, and build the result record.  Returns the network calls made and
either the record or the raised exception. -/
def upload_pdf_with_hash (hashFn : List Nat → String) (net : NetEnv) (f : FileData) :
    List NetCall × Except String StorageUploadResult :=
  let fileHash := calculate_file_hash hashFn f
  let fn := hashFilename f fileHash
  match net.presign fn with
  | .error e => ([.presignReq fn], .error e)
  | .ok pr =>
    match net.put pr.presigned_url with
    | .error e => ([.presignReq fn, .putReq pr.presigned_url], .error e)
    | .ok _ =>
      ([.presignReq fn, .putReq pr.presigned_url],
       .ok { file_hash := fileHash
             storage_key := pr.key
             access_url := pr.access_url
             access_expires_at := pr.access_expires_at })

/-- `upload_to_storage` (storage.py lines 144-170): disabled short-circuit,
process-lifetime dedup cache `_storage_cache` keyed by content digest,
upload on miss.  Returns the network calls, the new cache, and the
outcome (`.ok none` when storage is disabled, `.error` when the upload
raised). -/
def upload_to_storage (hashFn : List Nat → String) (cfg : StorageCfg) (net : NetEnv)
    (cache : List (String × StorageUploadResult)) (f : FileData) :
    List NetCall × List (String × StorageUploadResult) × Except String (Option StorageUploadResult) :=
  if cfg.enabled = false then ([], cache, .ok none)
  else
    let fileHash := calculate_file_hash hashFn f
    match lookupD cache fileHash with
    | some r => ([], cache, .ok (some r))
    | none =>
      match upload_pdf_with_hash hashFn net f with
      | (calls, .error e) => (calls, cache, .error e)
      | (calls, .ok r) => (calls, dictInsert cache fileHash r, .ok (some r))

/-! ## Task registry and orchestrator — src/api_server.py -/

/-- One entry of the per-artifact `storage_results` mapping built by the
orchestrator on finish (api_server.py lines 632-636, 643-647). -/
structure StorageRecord where
  access_url : String
  file_hash : String
  storage_key : String
deriving DecidableEq

/-- Projection of an upload result to the fields the orchestrator stores. -/
def toStorageRecord (r : StorageUploadResult) : StorageRecord :=
  { access_url := r.access_url, file_hash := r.file_hash, storage_key := r.storage_key }

/-- The `translate_result` payload attached to a finish event by the
engine: artifact paths and elapsed time.  `total_seconds` is carried
opaquely (the code forwards it verbatim). -/
structure EngineResult where
  mono_pdf_path : Option String
  dual_pdf_path : Option String
  total_seconds : String
deriving DecidableEq

/-- The `result` payload written into the registry entry on completion
(api_server.py lines 657-662). -/
structure ResultPayload where
  mono_pdf_path : Option String
  dual_pdf_path : Option String
  total_seconds : String
  storage : List (String × StorageRecord)
deriving DecidableEq

/-- One entry of `task_results`: the Python dict holds `status`,
`progress`, `stage`, `error`, `result` from creation on, and the four
part/stage counters only after the first progress event, hence the
`Option` counters. -/
structure TaskEntry where
  status : String
  progress : Nat
  stage : String
  part_index : Option Nat
  total_parts : Option Nat
  stage_current : Option Nat
  stage_total : Option Nat
  error : Option String
  result : Option ResultPayload
deriving DecidableEq

/-- A status string is terminal. -/
def isTerminalStatus (s : String) : Bool :=
  s == "completed" || s == "error" || s == "cancelled"

/-- The `event["type"]` tag of an engine event; `other` stands for any
tag the orchestrator does not recognize (it matches no branch). -/
inductive EventType where
  | progress_start
  | progress_update
  | progress_end
  | finish
  | error
  | other
deriving DecidableEq

/-- One engine event, as a record of optional dict fields.  A `none`
field models an absent dict key: direct indexing on it raises KeyError,
`event.get(k, d)` yields the default. -/
structure Event where
  type : EventType
  overall_progress : Option Nat
  stage : Option String
  part_index : Option Nat
  total_parts : Option Nat
  stage_current : Option Nat
  stage_total : Option Nat
  translate_result : Option EngineResult
  error : Option String

/-- The filesystem and remote-storage environment consumed by the finish
branch: whether each artifact path exists on disk, and the outcome of
each `upload_to_storage` call (`.error` models a raised exception,
`.ok none` models storage disabled). -/
structure FinishEnv where
  monoExists : Bool
  dualExists : Bool
  monoUp : Except String (Option StorageUploadResult)
  dualUp : Except String (Option StorageUploadResult)

/-- The registry entry installed by the first slice of
`_translation_task` (api_server.py line 607). -/
def initEntry : TaskEntry :=
  { status := "running"
    progress := 0
    stage := "Initializing"
    part_index := none
    total_parts := none
    stage_current := none
    stage_total := none
    error := none
    result := none }

/-- The progress-event merge (api_server.py lines 611-620):
`event["overall_progress"]` and `event["stage"]` are direct dict
indexing and raise KeyError when the key is absent (returned as
`.error`), while the four counters use `event.get(k, 1)`.  The update
dict is built before `.update` runs, so a KeyError mutates nothing. -/
def applyProgress (e : TaskEntry) (ev : Event) : Except String TaskEntry :=
  match ev.overall_progress with
  | none => .error "KeyError: overall_progress"
  | some p =>
    match ev.stage with
    | none => .error "KeyError: stage"
    | some s =>
      .ok { e with
            progress := p
            stage := s
            part_index := some (ev.part_index.getD 1)
            total_parts := some (ev.total_parts.getD 1)
            stage_current := some (ev.stage_current.getD 1)
            stage_total := some (ev.stage_total.getD 1) }

/-- The artifact mirroring block of the finish branch (api_server.py
lines 625-650): `storage_results` starts empty; the mono upload runs
when the mono path is set and exists on disk, then the dual upload
likewise; the whole block sits in a `try`, so the first raised exception
abandons the rest but keeps the results accumulated so far. -/
def storageUploads (res : EngineResult) (env : FinishEnv) : List (String × StorageRecord) :=
  let doMono := res.mono_pdf_path.isSome && env.monoExists
  let doDual := res.dual_pdf_path.isSome && env.dualExists
  let afterMono : List (String × StorageRecord) × Bool :=
    if doMono then
      match env.monoUp with
      | .error _ => ([], false)
      | .ok none => ([], true)
      | .ok (some r) => ([("mono", toStorageRecord r)], true)
    else ([], true)
  match afterMono with
  | (acc, false) => acc
  | (acc, true) =>
    if doDual then
      match env.dualUp with
      | .error _ => acc
      | .ok none => acc
      | .ok (some r) => acc ++ [("dual", toStorageRecord r)]
    else acc

/-- The completion update (api_server.py lines 652-664): status
`completed`, progress 100, result payload with the local artifact paths,
the elapsed time and whatever `storage_results` were gathered.  It runs
after the mirroring `try`/`except`, on every upload outcome. -/
def finishEntry (e : TaskEntry) (res : EngineResult) (env : FinishEnv) : TaskEntry :=
  { e with
    status := "completed"
    progress := 100
    stage := "Translation complete"
    result := some { mono_pdf_path := res.mono_pdf_path
                     dual_pdf_path := res.dual_pdf_path
                     total_seconds := res.total_seconds
                     storage := storageUploads res env } }

/-- Processing of one engine event by `_translation_task` (api_server.py
lines 609-669).  Returns the new entry and whether the orchestrator
keeps consuming the stream.  A KeyError raised by the merge, or a finish
event with no `translate_result` key, escapes the loop and is captured
by the function-level `except Exception` handler (lines 676-678), which
writes status `error`. -/
def processEvent (e : TaskEntry) (ev : Event) (env : FinishEnv) : TaskEntry × Bool :=
  match ev.type with
  | .progress_start | .progress_update | .progress_end =>
    match applyProgress e ev with
    | .ok e' => (e', true)
    | .error msg => ({ e with status := "error", error := some msg }, false)
  | .finish =>
    match ev.translate_result with
    | none => ({ e with status := "error", error := some "KeyError: translate_result" }, false)
    | some res => (finishEntry e res env, false)
  | .error => ({ e with status := "error", error := some (ev.error.getD "Unknown error") }, false)
  | .other => (e, true)

/-- The server state for one task identifier: the `task_results` entry
(none when absent, i.e. 404) and membership in `active_tasks`. -/
structure TaskState where
  entry : Option TaskEntry
  active : Bool
deriving DecidableEq

/-- The state right after `translate_with_file_id` returned the task id:
the spawned coroutine runs its first synchronous slice (installing the
registry entry, api_server.py line 607) when the cooperative loop drains
its ready queue, before any later-arriving HTTP request is dispatched,
so the model starts from the installed entry. -/
def startState : TaskState :=
  { entry := some initEntry, active := true }

/-- `cancel_task` (api_server.py lines 694-706).  When the task is still
active, `.cancel()` delivers CancelledError at the pending await of the
orchestrator; its handler (lines 673-675) writes status `cancelled` with
the explanatory message and the `finally` deregisters it — modelled as
one step, since no claim distinguishes the in-between.  When inactive
but present, only a still-`running` entry (a stream that ended without a
terminal event) is flipped to `cancelled`.  Unknown ids get 404. -/
def cancel_task (s : TaskState) : TaskState × Except HErr String :=
  if s.active then
    match s.entry with
    | some e =>
      ({ entry := some { e with
                         status := "cancelled"
                         error := some "Translation was cancelled" }
         active := false }, .ok "cancelled")
    | none => ({ entry := none, active := false }, .ok "cancelled")
  else
    match s.entry with
    | some e =>
      if e.status == "running" then
        ({ s with entry := some { e with status := "cancelled" } }, .ok "cancelled")
      else (s, .ok "cancelled")
    | none => (s, .error { status := 404, detail := "Task not found" })

/-- `get_task_status` (api_server.py lines 685-691): the poll. -/
def get_task_status (s : TaskState) : Except HErr TaskEntry :=
  match s.entry with
  | some e => .ok e
  | none => .error { status := 404, detail := "Task not found" }

/-- `cleanup_task` (api_server.py lines 733-750), DELETE of a task:
cancel the active unit if any, drop the registry entry, remove the
working directory; it always answers `cleaned`, with no failure path. -/
def cleanup_task (_s : TaskState) : TaskState × String :=
  ({ entry := none, active := false }, "cleaned")

/-- The operations that can hit one task after it started, release
excluded: an engine event consumed by the orchestrator (with its
filesystem/storage environment), the engine stream ending without a
terminal event, and an external cancel request.  Polls are read-only and
need no operation. -/
inductive TaskOp where
  | engineEvent (ev : Event) (env : FinishEnv)
  | streamEnd
  | cancelRequest

/-- One interleaving step of the per-task system.  Engine events only
have an effect while the orchestrator is consuming (after a terminal
event or cancellation it broke out of the loop and was deregistered);
`streamEnd` is the `finally` deregistration when the stream is exhausted
without a terminal event (api_server.py lines 679-682). -/
def TaskState.step (s : TaskState) (op : TaskOp) : TaskState :=
  match op with
  | .engineEvent ev env =>
    if s.active then
      match s.entry with
      | some e =>
        match processEvent e ev env with
        | (e', cont) => { entry := some e', active := cont }
      | none => { s with active := false }
    else s
  | .streamEnd => if s.active then { s with active := false } else s
  | .cancelRequest => (cancel_task s).1

/-- The state reached from a fresh task by a sequence of operations. -/
def reach (ops : List TaskOp) : TaskState :=
  ops.foldl TaskState.step startState

/-! ## File upload endpoints — src/api_server.py -/

/-- `FileUploadResponse` (api_server.py line 246). -/
structure FileUploadResponse where
  file_id : String
  filename : String
  size : Nat
  message : String
deriving DecidableEq

/-- The bytes of `b"%PDF-"`. -/
def pdfMagic : List Nat := [37, 80, 68, 70, 45]

/-- Python `str.lower()` on a filename, character by character. -/
def pyLower (s : String) : String := ⟨s.data.map Char.toLower⟩

/-- Python `str.endswith(post)`. -/
def pyEndsWith (s post : String) : Bool := post.data.isSuffixOf s.data

/-- `upload_file` (api_server.py lines 348-413): filename presence,
`.pdf` extension (case-insensitive), non-emptiness, the 100MB cap, and
the `%PDF-` header check, in that order; on success, register the file
under a fresh id.  `newId` stands for the generated UUID. -/
def upload_file (reg : List (String × String)) (filename : String)
    (content : List Nat) (newId : String) :
    List (String × String) × Except HErr FileUploadResponse :=
  if filename = "" then
    (reg, .error { status := 400, detail := "No file provided or filename is missing" })
  else if ¬ (pyEndsWith (pyLower filename) ".pdf") then
    (reg, .error { status := 400, detail := "Only PDF files are supported" })
  else if content.length = 0 then
    (reg, .error { status := 400, detail := "Uploaded file is empty" })
  else if content.length > 100 * 1024 * 1024 then
    (reg, .error { status := 413, detail := "File too large. Maximum size is 100MB" })
  else if ¬ (pdfMagic.isPrefixOf content) then
    (reg, .error { status := 400, detail := "Invalid PDF file format" })
  else
    (dictInsert reg newId ("pdf2zh_files/uploads/" ++ newId ++ "/" ++ filename),
     .ok { file_id := newId
           filename := filename
           size := content.length
           message := "File uploaded successfully" })

/-- `cleanup_uploaded_file` (api_server.py lines 753-791), DELETE of an
uploaded file: 404 when the id is not registered, otherwise remove the
backing directory and the registry entry. -/
def cleanup_uploaded_file (reg : List (String × String)) (fid : String) :
    List (String × String) × Except HErr String :=
  match lookupD reg fid with
  | none => (reg, .error { status := 404, detail := "File not found" })
  | some _ => (removeKey reg fid, .ok "cleaned")

/-! ## Helper lemmas -/

theorem lookupD_dictInsert_self {α : Type} (m : List (String × α)) (k : String) (v : α) :
    lookupD (dictInsert m k v) k = some v := by
  induction m with
  | nil => simp [dictInsert, lookupD]
  | cons p rest ih =>
    obtain ⟨k2, v2⟩ := p
    by_cases h : k2 = k
    · simp [dictInsert, h, lookupD]
    · simp [dictInsert, h, lookupD, ih]

theorem keys_dictInsert_mem {α : Type} (m : List (String × α)) (k : String) (v : α)
    (a : String) (ha : a ∈ (dictInsert m k v).map Prod.fst) :
    a = k ∨ a ∈ m.map Prod.fst := by
  induction m with
  | nil =>
    simp [dictInsert] at ha
    exact Or.inl ha
  | cons p rest ih =>
    obtain ⟨k2, v2⟩ := p
    by_cases h : k2 = k
    · simp [dictInsert, h] at ha
      rcases ha with h1 | h2
      · exact Or.inl h1
      · exact Or.inr (by simp [h2])
    · simp [dictInsert, h] at ha
      rcases ha with h1 | h2
      · exact Or.inr (by simp [h1])
      · have h2m : a ∈ (dictInsert rest k v).map Prod.fst := by simpa using h2
        rcases ih h2m with h3 | h4
        · exact Or.inl h3
        · exact Or.inr (by simp at h4 ⊢; exact Or.inr h4)

theorem nodupKeys_dictInsert {α : Type} (m : List (String × α)) (k : String) (v : α)
    (h : nodupKeys m) : nodupKeys (dictInsert m k v) := by
  induction m with
  | nil => simp [dictInsert, nodupKeys]
  | cons p rest ih =>
    obtain ⟨k2, v2⟩ := p
    unfold nodupKeys at h ⊢
    simp only [List.map_cons, List.nodup_cons] at h
    by_cases hkk : k2 = k
    · simp only [dictInsert, hkk, if_pos]
      simp only [List.map_cons, List.nodup_cons]
      refine ⟨?_, h.2⟩
      rw [← hkk]
      exact h.1
    · simp only [dictInsert, hkk, if_neg, ite_false]
      simp only [List.map_cons, List.nodup_cons]
      refine ⟨?_, ih h.2⟩
      intro hmem
      rcases keys_dictInsert_mem rest k v k2 hmem with h1 | h2
      · exact hkk h1
      · exact h.1 h2

theorem lookupD_removeKey_self {α : Type} (m : List (String × α)) (k : String) :
    lookupD (removeKey m k) k = none := by
  induction m with
  | nil => simp [removeKey, lookupD]
  | cons p rest ih =>
    obtain ⟨k2, v2⟩ := p
    by_cases h : k2 = k
    · simpa [removeKey, h] using ih
    · simpa [removeKey, lookupD, h] using ih

theorem get_task_status_ok_iff (s : TaskState) (e : TaskEntry) :
    get_task_status s = .ok e ↔ s.entry = some e := by
  unfold get_task_status
  cases s.entry <;> simp

theorem terminal_ne_running (st : String) (ht : isTerminalStatus st = true) :
    (st == "running") = false := by
  cases hb : st == "running"
  · rfl
  · exfalso
    have heq : st = "running" := eq_of_beq hb
    rw [heq] at ht
    exact absurd ht (by decide)


theorem processEvent_cont_keeps_status (e : TaskEntry) (ev : Event) (env : FinishEnv)
    (h : (processEvent e ev env).2 = true) : (processEvent e ev env).1.status = e.status := by
  obtain ⟨ty, oprog, ostage, pi, tp, sc, stt, tr, er⟩ := ev
  cases ty <;> cases oprog <;> cases ostage <;> cases tr <;>
    simp_all [processEvent, applyProgress]

/-- The registry/active-set invariant: while a task identifier is still
registered in `active_tasks`, its registry entry exists and is in the
non-terminal `running` status (the orchestrator writes a terminal status
and deregisters itself without suspending in between). -/
def TaskInv (s : TaskState) : Prop :=
  s.active = true → ∃ e, s.entry = some e ∧ e.status = "running"

theorem step_inv (s : TaskState) (op : TaskOp) (h : TaskInv s) : TaskInv (s.step op) := by
  cases op with
  | engineEvent ev env =>
    by_cases ha : s.active = true
    · obtain ⟨e, he, hr⟩ := h ha
      rcases hpe : processEvent e ev env with ⟨e2, cont⟩
      intro hact
      simp only [TaskState.step, ha, if_pos, he, hpe] at hact ⊢
      refine ⟨e2, rfl, ?_⟩
      have hst := processEvent_cont_keeps_status e ev env
      rw [hpe] at hst
      simp only at hst hact
      rw [hst hact, hr]
    · intro hact
      simp [TaskState.step, ha] at hact
  | streamEnd =>
    intro hact
    by_cases ha : s.active = true
    · simp [TaskState.step, ha] at hact
    · simp [TaskState.step, ha] at hact
  | cancelRequest =>
    intro hact
    by_cases ha : s.active = true
    · obtain ⟨e, he, hr⟩ := h ha
      simp [TaskState.step, cancel_task, ha, he] at hact
    · cases hse : s.entry with
      | some e =>
        by_cases hrun : (e.status == "running") = true
        · simp [TaskState.step, cancel_task, ha, hse, hrun] at hact
        · simp [TaskState.step, cancel_task, ha, hse, hrun] at hact
      | none =>
        simp [TaskState.step, cancel_task, ha, hse] at hact

theorem reach_inv (ops : List TaskOp) : TaskInv (reach ops) := by
  have hfold : ∀ (l : List TaskOp) (s : TaskState), TaskInv s → TaskInv (l.foldl TaskState.step s) := by
    intro l
    induction l with
    | nil => intro s hs; exact hs
    | cons op rest ih => intro s hs; exact ih _ (step_inv s op hs)
  exact hfold ops startState (fun _ => ⟨initEntry, rfl, rfl⟩)

theorem terminal_not_active (ops : List TaskOp) (e : TaskEntry)
    (he : (reach ops).entry = some e) (ht : isTerminalStatus e.status = true) :
    (reach ops).active = false := by
  cases hact : (reach ops).active
  · rfl
  · obtain ⟨e2, he2, hr⟩ := reach_inv ops hact
    rw [he] at he2
    injection he2 with h2
    rw [← h2] at hr
    rw [hr] at ht
    exact absurd ht (by decide)

theorem frozen_step (s : TaskState) (op : TaskOp) (e : TaskEntry)
    (he : s.entry = some e) (ht : isTerminalStatus e.status = true)
    (hna : s.active = false) : s.step op = s := by
  have hact : ¬ (s.active = true) := by rw [hna]; simp
  have hne := terminal_ne_running e.status ht
  cases op with
  | engineEvent ev env => simp [TaskState.step, hact]
  | streamEnd => simp [TaskState.step, hact]
  | cancelRequest => simp [TaskState.step, cancel_task, hact, he, hne]

theorem reach_entry_isSome (ops : List TaskOp) : (reach ops).entry.isSome = true := by
  have hstep : ∀ (s : TaskState) (op : TaskOp), s.entry.isSome = true → (s.step op).entry.isSome = true := by
    intro s op h
    obtain ⟨e, he⟩ := Option.isSome_iff_exists.mp h
    cases op with
    | engineEvent ev env =>
      by_cases ha : s.active = true
      · rcases hpe : processEvent e ev env with ⟨e2, cont⟩
        simp [TaskState.step, ha, he, hpe]
      · simp [TaskState.step, ha, he]
    | streamEnd =>
      by_cases ha : s.active = true
      · simp [TaskState.step, ha, he]
      · simp [TaskState.step, ha, he]
    | cancelRequest =>
      by_cases ha : s.active = true
      · simp [TaskState.step, cancel_task, ha, he]
      · by_cases hrun : (e.status == "running") = true
        · simp [TaskState.step, cancel_task, ha, he, hrun]
        · simp [TaskState.step, cancel_task, ha, he, hrun]
  have hfold : ∀ (l : List TaskOp) (s : TaskState), s.entry.isSome = true →
      (l.foldl TaskState.step s).entry.isSome = true := by
    intro l
    induction l with
    | nil => intro s hs; exact hs
    | cons op rest ih => intro s hs; exact ih _ (hstep s op hs)
  exact hfold ops startState rfl

/-! ## Concrete fixtures used by witnesses and counterexamples -/

/-- A finish environment with no artifacts and no storage activity. -/
def env0 : FinishEnv :=
  { monoExists := false, dualExists := false, monoUp := .ok none, dualUp := .ok none }

/-- An engine error event carrying a message. -/
def errEvent : Event :=
  { type := .error, overall_progress := none, stage := none, part_index := none,
    total_parts := none, stage_current := none, stage_total := none,
    translate_result := none, error := some "engine crashed" }

/-- The registry entry after the orchestrator consumed `errEvent`. -/
def errEntry0 : TaskEntry :=
  { initEntry with status := "error", error := some "engine crashed" }

/-! ## Claim theorems -/

/-- C1: once a poll of the task registry observes a terminal status
(completed, error or cancelled), every subsequent poll of the same task
identifier — across any further interleaving of engine events, stream
termination and cancel requests, release excluded — observes the
identical terminal snapshot; no such operation mutates a terminal
entry. -/
theorem task_terminal_snapshot_frozen (ops more : List TaskOp) (e : TaskEntry)
    (hpoll : get_task_status (reach ops) = .ok e)
    (ht : isTerminalStatus e.status = true) :
    get_task_status (reach (ops ++ more)) = .ok e := by
  have he := (get_task_status_ok_iff _ e).mp hpoll
  have hna := terminal_not_active ops e he ht
  have hfix : ∀ (l : List TaskOp), List.foldl TaskState.step (reach ops) l = reach ops := by
    intro l
    induction l with
    | nil => rfl
    | cons op rest ih =>
      have h1 : TaskState.step (reach ops) op = reach ops := frozen_step _ op e he ht hna
      calc List.foldl TaskState.step (reach ops) (op :: rest)
          = List.foldl TaskState.step (TaskState.step (reach ops) op) rest := rfl
        _ = List.foldl TaskState.step (reach ops) rest := by rw [h1]
        _ = reach ops := ih
  have hre : reach (ops ++ more) = reach ops := by
    unfold reach
    rw [List.foldl_append]
    exact hfix more
  rw [hre]
  exact hpoll

/-- Witness for C1: after an engine error event the poll shows the
terminal error snapshot, and it is unchanged by a subsequent cancel
request and stream end. -/
theorem task_terminal_snapshot_frozen_witness :
    get_task_status (reach ([TaskOp.engineEvent errEvent env0]
        ++ [TaskOp.cancelRequest, TaskOp.streamEnd])) = .ok errEntry0 :=
  task_terminal_snapshot_frozen [TaskOp.engineEvent errEvent env0]
    [TaskOp.cancelRequest, TaskOp.streamEnd] errEntry0 (by decide) (by decide)

/-- C7: a cancel request against a task whose entry is terminal returns
success (HTTP 200, body status `cancelled`) and leaves the whole task
state — in particular its status, error and result fields —
unchanged. -/
theorem cancel_of_terminal_task_is_noop (ops : List TaskOp) (e : TaskEntry)
    (hpoll : get_task_status (reach ops) = .ok e)
    (ht : isTerminalStatus e.status = true) :
    (cancel_task (reach ops)).2 = .ok "cancelled"
    ∧ (cancel_task (reach ops)).1 = reach ops := by
  have he := (get_task_status_ok_iff _ e).mp hpoll
  have hna := terminal_not_active ops e he ht
  have hact : ¬ ((reach ops).active = true) := by rw [hna]; simp
  have hne := terminal_ne_running e.status ht
  constructor
  · simp [cancel_task, hact, he, hne]
  · simp [cancel_task, hact, he, hne]

/-- Witness for C7 at a concrete terminal (error) task. -/
theorem cancel_of_terminal_task_is_noop_witness :
    (cancel_task (reach [TaskOp.engineEvent errEvent env0])).2 = .ok "cancelled"
    ∧ (cancel_task (reach [TaskOp.engineEvent errEvent env0])).1
        = reach [TaskOp.engineEvent errEvent env0] :=
  cancel_of_terminal_task_is_noop [TaskOp.engineEvent errEvent env0] errEntry0
    (by decide) (by decide)

/-- C3 counterexample: the claim says the very first poll always
reports status pending or running with progress 0, but nothing stops
the orchestrator from consuming engine events before the client gets
around to its first poll: after the engine emitted an error event, a
first poll observes the terminal `error` snapshot. -/
theorem first_poll_not_always_initial_cex :
    get_task_status (reach [TaskOp.engineEvent errEvent env0]) = .ok errEntry0
    ∧ errEntry0.status ≠ "pending" ∧ errEntry0.status ≠ "running" := by decide

/-- C3 (amended): after the start request returns a task id, a poll
never returns Not-Found (the entry installed by the first slice of the
spawned coroutine persists through every engine event, stream end and
cancel request), and a poll that happens before the orchestrator
consumed any engine event reports status `running` (the code merges the
instantaneous `pending` into `running`) with progress 0. -/
theorem first_poll_installed_and_initial (ops : List TaskOp) :
    (∃ e, get_task_status (reach ops) = .ok e)
    ∧ get_task_status (reach []) = .ok initEntry
    ∧ initEntry.status = "running"
    ∧ initEntry.progress = 0 := by
  refine ⟨?_, rfl, rfl, rfl⟩
  obtain ⟨e, he⟩ := Option.isSome_iff_exists.mp (reach_entry_isSome ops)
  exact ⟨e, (get_task_status_ok_iff _ e).mpr he⟩

/-- A progress event with the `overall_progress` key absent. -/
def badProgressEvent : Event :=
  { type := .progress_update, overall_progress := none, stage := some "Rendering",
    part_index := some 2, total_parts := some 3, stage_current := none, stage_total := none,
    translate_result := none, error := none }

/-- C4 counterexample: a progress event with no `overall_progress`
field does fail the task.  `event["overall_progress"]` raises KeyError;
the function-level exception handler captures it and writes status
`error`, so the entry does not keep its previous value and the task is
failed — contradicting the claim that an absent progress or stage field
leaves the stored value unchanged and does not fail the task. -/
theorem progress_event_missing_field_fails_cex :
    (reach [TaskOp.engineEvent badProgressEvent env0]).entry
      = some { initEntry with status := "error", error := some "KeyError: overall_progress" }
    ∧ (reach [TaskOp.engineEvent badProgressEvent env0]).entry ≠ some initEntry
    ∧ isTerminalStatus "error" = true := by decide

/-- C4 (amended): on a progress event (progress_start, progress_update
or progress_end) the entry merges progress, stage and the four
counters, each counter defaulting to 1 when its field is absent;
`overall_progress` and `stage` are mandatory — when either is absent
the raised KeyError is captured and the task fails with status `error`,
and the orchestrator stops consuming. -/
theorem progress_event_merge (e : TaskEntry) (ev : Event) (env : FinishEnv)
    (hty : ev.type = EventType.progress_start ∨ ev.type = EventType.progress_update
           ∨ ev.type = EventType.progress_end) :
    (∀ p s, ev.overall_progress = some p → ev.stage = some s →
       processEvent e ev env
         = ({ e with
              progress := p
              stage := s
              part_index := some (ev.part_index.getD 1)
              total_parts := some (ev.total_parts.getD 1)
              stage_current := some (ev.stage_current.getD 1)
              stage_total := some (ev.stage_total.getD 1) }, true))
    ∧ ((ev.overall_progress = none ∨ ev.stage = none) →
        (processEvent e ev env).1.status = "error" ∧ (processEvent e ev env).2 = false) := by
  constructor
  · intro p s hp hs
    rcases hty with h | h | h <;>
      simp [processEvent, applyProgress, h, hp, hs]
  · intro hmiss
    rcases hty with h | h | h <;> rcases hmiss with hm | hm <;>
      cases hop : ev.overall_progress <;>
        simp_all [processEvent, applyProgress]

/-- Witness for C4 (amended): a full progress event merges with the
absent counters defaulted to 1. -/
theorem progress_event_merge_witness :
    processEvent initEntry
      { type := .progress_update, overall_progress := some 42, stage := some "Rendering",
        part_index := some 2, total_parts := some 3, stage_current := none, stage_total := none,
        translate_result := none, error := none } env0
      = ({ initEntry with
           progress := 42
           stage := "Rendering"
           part_index := some 2
           total_parts := some 3
           stage_current := some 1
           stage_total := some 1 }, true) :=
  (progress_event_merge initEntry
    { type := .progress_update, overall_progress := some 42, stage := some "Rendering",
      part_index := some 2, total_parts := some 3, stage_current := none, stage_total := none,
      translate_result := none, error := none } env0 (Or.inr (Or.inl rfl))).1 42 "Rendering" rfl rfl

/-- C5: when the engine stream delivers a finish event, the task
finalizes with status `completed`, progress 100 and a result payload
holding the local artifact paths, for every artifact-mirroring outcome
`env` — in particular when the remote-storage upload raises: the
failure is swallowed by the mirroring `try`/`except` block and never
turns the status into `error`. -/
theorem finish_event_completes_despite_upload_failure
    (ops : List TaskOp) (ev : Event) (env : FinishEnv) (res : EngineResult) (e : TaskEntry)
    (hpoll : get_task_status (reach ops) = .ok e)
    (ha : (reach ops).active = true)
    (hty : ev.type = EventType.finish)
    (hres : ev.translate_result = some res) :
    ((reach ops).step (TaskOp.engineEvent ev env)).entry = some (finishEntry e res env)
    ∧ (finishEntry e res env).status = "completed"
    ∧ (finishEntry e res env).progress = 100
    ∧ (finishEntry e res env).result
        = some { mono_pdf_path := res.mono_pdf_path
                 dual_pdf_path := res.dual_pdf_path
                 total_seconds := res.total_seconds
                 storage := storageUploads res env } := by
  have he := (get_task_status_ok_iff _ e).mp hpoll
  refine ⟨?_, rfl, rfl, rfl⟩
  have hpe2 : processEvent e ev env = (finishEntry e res env, false) := by
    simp [processEvent, hty, hres]
  simp [TaskState.step, ha, he, hpe2]

/-- The engine result of a finished job with both artifacts. -/
def resA : EngineResult :=
  { mono_pdf_path := some "/out/a.mono.pdf", dual_pdf_path := some "/out/a.dual.pdf",
    total_seconds := "3.5" }

/-- The finish event carrying `resA`. -/
def finishEventA : Event :=
  { type := .finish, overall_progress := none, stage := none, part_index := none,
    total_parts := none, stage_current := none, stage_total := none,
    translate_result := some resA, error := none }

/-- An environment where both artifacts exist on disk and both
remote-storage uploads raise. -/
def failEnv : FinishEnv :=
  { monoExists := true, dualExists := true,
    monoUp := .error "storage API error", dualUp := .error "storage API error" }

/-- Witness for C5: both uploads raise, yet the task completes with the
local paths in the result payload. -/
theorem finish_event_completes_despite_upload_failure_witness :
    ((reach []).step (TaskOp.engineEvent finishEventA failEnv)).entry
        = some (finishEntry initEntry resA failEnv)
    ∧ (finishEntry initEntry resA failEnv).status = "completed"
    ∧ (finishEntry initEntry resA failEnv).progress = 100
    ∧ (finishEntry initEntry resA failEnv).result
        = some { mono_pdf_path := resA.mono_pdf_path
                 dual_pdf_path := resA.dual_pdf_path
                 total_seconds := resA.total_seconds
                 storage := storageUploads resA failEnv } :=
  finish_event_completes_despite_upload_failure [] finishEventA failEnv resA initEntry
    rfl rfl rfl rfl

/-- C6: a second upload of byte-identical content (after a first call
that succeeded with some record) computes the same content digest,
returns exactly the cached record, performs no network call (no
credential negotiation, no PUT) and leaves the cache unchanged; the
cache keeps at most one entry per digest. -/
theorem upload_dedup_second_call_cached
    (hashFn : List Nat → String) (cfg : StorageCfg) (net : NetEnv)
    (cache0 : List (String × StorageUploadResult)) (f1 f2 : FileData) (r : StorageUploadResult)
    (hen : cfg.enabled = true)
    (hc : f2.content = f1.content)
    (hnd : nodupKeys cache0)
    (hfst : (upload_to_storage hashFn cfg net cache0 f1).2.2 = Except.ok (some r)) :
    calculate_file_hash hashFn f2 = calculate_file_hash hashFn f1
    ∧ upload_to_storage hashFn cfg net ((upload_to_storage hashFn cfg net cache0 f1).2.1) f2
        = ([], (upload_to_storage hashFn cfg net cache0 f1).2.1, Except.ok (some r))
    ∧ nodupKeys ((upload_to_storage hashFn cfg net cache0 f1).2.1) := by
  have hhash : calculate_file_hash hashFn f2 = calculate_file_hash hashFn f1 := by
    unfold calculate_file_hash
    rw [hc]
  have hcfg : ¬ (cfg.enabled = false) := by rw [hen]; simp
  cases hlu : lookupD cache0 (calculate_file_hash hashFn f1) with
  | some r0 =>
    have h1 : upload_to_storage hashFn cfg net cache0 f1 = ([], cache0, .ok (some r0)) := by
      simp [upload_to_storage, hcfg, hlu]
    rw [h1] at hfst
    have hr : r0 = r := by simpa using hfst
    subst hr
    refine ⟨hhash, ?_, ?_⟩
    · rw [h1]
      simp [upload_to_storage, hcfg, hhash, hlu]
    · rw [h1]
      exact hnd
  | none =>
    rcases hup : upload_pdf_with_hash hashFn net f1 with ⟨calls, out⟩
    cases out with
    | error msg =>
      have h1 : upload_to_storage hashFn cfg net cache0 f1 = (calls, cache0, .error msg) := by
        simp [upload_to_storage, hcfg, hlu, hup]
      rw [h1] at hfst
      exact absurd hfst (by simp)
    | ok r0 =>
      have h1 : upload_to_storage hashFn cfg net cache0 f1
          = (calls, dictInsert cache0 (calculate_file_hash hashFn f1) r0, .ok (some r0)) := by
        simp [upload_to_storage, hcfg, hlu, hup]
      rw [h1] at hfst
      have hr : r0 = r := by simpa using hfst
      subst hr
      refine ⟨hhash, ?_, ?_⟩
      · rw [h1]
        simp [upload_to_storage, hcfg, hhash, lookupD_dictInsert_self]
      · rw [h1]
        exact nodupKeys_dictInsert cache0 _ r0 hnd

/-- The content digest used by the witnesses. -/
def hfW : List Nat → String := fun c => "h" ++ toString c.length

/-- A remote storage endpoint that always succeeds, for the witnesses. -/
def netW : NetEnv :=
  { presign := fun _ => .ok { presigned_url := "https://put", key := "objkey", expires_at := 10,
                              access_url := "https://get", access_expires_at := 20 }
    put := fun _ => .ok () }

/-- An enabled storage configuration. -/
def cfgW : StorageCfg := { enabled := true, api_base_url := "https://storage", auth_token := "tok" }

/-- A concrete two-byte file. -/
def fW1 : FileData := { stem := "doc", ext := ".pdf", content := [37, 80] }

/-- The same bytes under the same name, uploaded again. -/
def fW2 : FileData := { stem := "doc", ext := ".pdf", content := [37, 80] }

/-- The record the first upload of `fW1` produces against `netW`. -/
def rW : StorageUploadResult :=
  { file_hash := "h2", storage_key := "objkey", access_url := "https://get", access_expires_at := 20 }

/-- Witness for C6 at a concrete first upload into an empty cache. -/
theorem upload_dedup_second_call_cached_witness :
    calculate_file_hash hfW fW2 = calculate_file_hash hfW fW1
    ∧ upload_to_storage hfW cfgW netW ((upload_to_storage hfW cfgW netW [] fW1).2.1) fW2
        = ([], (upload_to_storage hfW cfgW netW [] fW1).2.1, Except.ok (some rW))
    ∧ nodupKeys ((upload_to_storage hfW cfgW netW [] fW1).2.1) :=
  upload_dedup_second_call_cached hfW cfgW netW [] fW1 fW2 rW rfl rfl
    (by simp [nodupKeys]) (by decide)

/-- The record built by `upload_pdf_with_hash` from the presigned
response negotiated for the digest-qualified filename (storage.py lines
131-137): its storage key and access URL come from that negotiation and
therefore embed the uploading file's own name. -/
def negotiatedRecord (hashFn : List Nat → String) (f : FileData) (pr : PresignedResp) :
    StorageUploadResult :=
  { file_hash := hashFn f.content, storage_key := pr.key,
    access_url := pr.access_url, access_expires_at := pr.access_expires_at }

/-- C10: the dedup cache is keyed by the content digest alone and
ignores the filename: after a first upload of `f1` (cache miss,
negotiation for the digest-qualified name built from the stem of `f1`,
successful PUT), a second upload of a file `f2` with identical bytes
but a different name returns the first record unchanged — storage key
and access URL negotiated for the first filename included — with no
network call and no cache change. -/
theorem dedup_cache_ignores_filename
    (hashFn : List Nat → String) (cfg : StorageCfg) (net : NetEnv)
    (cache0 : List (String × StorageUploadResult)) (f1 f2 : FileData) (pr : PresignedResp)
    (hen : cfg.enabled = true)
    (hmiss : lookupD cache0 (hashFn f1.content) = none)
    (hpre : net.presign (hashFilename f1 (hashFn f1.content)) = .ok pr)
    (hput : net.put pr.presigned_url = .ok ())
    (hc : f2.content = f1.content)
    (hname : f1.stem ≠ f2.stem) :
    upload_to_storage hashFn cfg net cache0 f1
      = ([NetCall.presignReq (hashFilename f1 (hashFn f1.content)),
          NetCall.putReq pr.presigned_url],
         dictInsert cache0 (hashFn f1.content) (negotiatedRecord hashFn f1 pr),
         Except.ok (some (negotiatedRecord hashFn f1 pr)))
    ∧ upload_to_storage hashFn cfg net
          (dictInsert cache0 (hashFn f1.content) (negotiatedRecord hashFn f1 pr)) f2
        = ([], dictInsert cache0 (hashFn f1.content) (negotiatedRecord hashFn f1 pr),
           Except.ok (some (negotiatedRecord hashFn f1 pr))) := by
  have hcfg : ¬ (cfg.enabled = false) := by rw [hen]; simp
  constructor
  · simp [upload_to_storage, hcfg, calculate_file_hash, hmiss, upload_pdf_with_hash,
      hpre, hput, negotiatedRecord]
  · simp [upload_to_storage, hcfg, calculate_file_hash, hc, lookupD_dictInsert_self]

/-- The same bytes as `fW1` under a different name. -/
def fW3 : FileData := { stem := "other", ext := ".pdf", content := [37, 80] }

/-- The presigned response `netW` returns. -/
def prW : PresignedResp :=
  { presigned_url := "https://put", key := "objkey", expires_at := 10,
    access_url := "https://get", access_expires_at := 20 }

/-- Witness for C10: identical bytes under the names `doc` and `other`. -/
theorem dedup_cache_ignores_filename_witness :
    upload_to_storage hfW cfgW netW [] fW1
      = ([NetCall.presignReq (hashFilename fW1 (hfW fW1.content)),
          NetCall.putReq prW.presigned_url],
         dictInsert [] (hfW fW1.content) (negotiatedRecord hfW fW1 prW),
         Except.ok (some (negotiatedRecord hfW fW1 prW)))
    ∧ upload_to_storage hfW cfgW netW
          (dictInsert [] (hfW fW1.content) (negotiatedRecord hfW fW1 prW)) fW3
        = ([], dictInsert [] (hfW fW1.content) (negotiatedRecord hfW fW1 prW),
           Except.ok (some (negotiatedRecord hfW fW1 prW))) :=
  dedup_cache_ignores_filename hfW cfgW netW [] fW1 fW3 prW rfl rfl rfl rfl rfl (by decide)

/-- C8: content that does not begin with the `%PDF-` signature is
rejected and no file id is issued (the registry is unchanged), for
every claimed filename and every content size; the rejection is a
client validation failure (400, or 413 on the size cap that precedes
the header check). -/
theorem non_pdf_content_always_rejected (reg : List (String × String)) (filename : String)
    (content : List Nat) (newId : String)
    (h : pdfMagic.isPrefixOf content = false) :
    ∃ err : HErr, upload_file reg filename content newId = (reg, .error err)
      ∧ (err.status = 400 ∨ err.status = 413) := by
  by_cases h1 : filename = ""
  · exact ⟨{ status := 400, detail := "No file provided or filename is missing" },
      by simp [upload_file, h1], Or.inl rfl⟩
  · by_cases h2 : (pyEndsWith (pyLower filename) ".pdf") = true
    · by_cases h3 : content.length = 0
      · exact ⟨{ status := 400, detail := "Uploaded file is empty" },
          by simp [upload_file, h1, h2, h3], Or.inl rfl⟩
      · by_cases h4 : content.length > 100 * 1024 * 1024
        · exact ⟨{ status := 413, detail := "File too large. Maximum size is 100MB" },
            by simp [upload_file, h1, h2, h3, h4], Or.inr rfl⟩
        · exact ⟨{ status := 400, detail := "Invalid PDF file format" },
            by simp [upload_file, h1, h2, h3, h4, h], Or.inl rfl⟩
    · exact ⟨{ status := 400, detail := "Only PDF files are supported" },
        by simp [upload_file, h1, h2], Or.inl rfl⟩

/-- Witness for C8: a `.pdf`-named file whose bytes are not a PDF. -/
theorem non_pdf_content_always_rejected_witness :
    ∃ err : HErr, upload_file [] "doc.pdf" [0, 1, 2] "id1" = ([], .error err)
      ∧ (err.status = 400 ∨ err.status = 413) :=
  non_pdf_content_always_rejected [] "doc.pdf" [0, 1, 2] "id1" (by decide)

/-- C9: a claimed filename that does not end in `.pdf`
(case-insensitively) is rejected with a 400 validation failure before
the emptiness, size and header checks run: the 400 comes back for every
content whatsoever — empty, oversized (which would otherwise get 413),
or a perfectly valid PDF body — and no file id is issued. -/
theorem non_pdf_extension_rejected_400 (reg : List (String × String)) (filename : String)
    (content : List Nat) (newId : String)
    (h : pyEndsWith (pyLower filename) ".pdf" = false) :
    ∃ err : HErr, upload_file reg filename content newId = (reg, .error err)
      ∧ err.status = 400 := by
  by_cases h1 : filename = ""
  · exact ⟨{ status := 400, detail := "No file provided or filename is missing" },
      by simp [upload_file, h1], rfl⟩
  · exact ⟨{ status := 400, detail := "Only PDF files are supported" },
      by simp [upload_file, h1, h], rfl⟩

/-- Witness for C9: a `.txt`-named upload whose bytes are a valid PDF
header still gets the 400 extension rejection. -/
theorem non_pdf_extension_rejected_400_witness :
    ∃ err : HErr, upload_file [] "doc.txt" [37, 80, 68, 70, 45] "id2" = ([], .error err)
      ∧ err.status = 400 :=
  non_pdf_extension_rejected_400 [] "doc.txt" [37, 80, 68, 70, 45] "id2" (by decide)

/-- A file registry with one registered upload. -/
def regFR : List (String × String) := [("f1", "pdf2zh_files/uploads/f1/a.pdf")]

/-- C2 counterexample: the claim says a second release after a first
successful one succeeds without error for both tasks and files, but the
second DELETE of an uploaded file returns 404 Not-Found: the first call
removed the registry entry, and `cleanup_uploaded_file` raises on an
unknown id. -/
theorem file_release_second_delete_404_cex :
    (cleanup_uploaded_file regFR "f1").2 = .ok "cleaned"
    ∧ (cleanup_uploaded_file (cleanup_uploaded_file regFR "f1").1 "f1").2
        = .error { status := 404, detail := "File not found" } := by decide

/-- C2 (amended): task release is idempotent — DELETE of a task always
answers `cleaned`, also right after a previous release — while file
release is not: the first DELETE of a registered file succeeds and the
second fails with 404 Not-Found. -/
theorem release_idempotency_amended (s : TaskState) (reg : List (String × String)) (fid : String)
    (h : lookupD reg fid ≠ none) :
    (cleanup_task (cleanup_task s).1).2 = "cleaned"
    ∧ (cleanup_uploaded_file reg fid).2 = .ok "cleaned"
    ∧ (cleanup_uploaded_file (cleanup_uploaded_file reg fid).1 fid).2
        = .error { status := 404, detail := "File not found" } := by
  refine ⟨rfl, ?_, ?_⟩
  · cases hlu : lookupD reg fid with
    | none => exact absurd hlu h
    | some p => simp [cleanup_uploaded_file, hlu]
  · cases hlu : lookupD reg fid with
    | none => exact absurd hlu h
    | some p => simp [cleanup_uploaded_file, hlu, lookupD_removeKey_self]

/-- Witness for C2 (amended) at the concrete one-file registry. -/
theorem release_idempotency_amended_witness :
    (cleanup_task (cleanup_task startState).1).2 = "cleaned"
    ∧ (cleanup_uploaded_file regFR "f1").2 = .ok "cleaned"
    ∧ (cleanup_uploaded_file (cleanup_uploaded_file regFR "f1").1 "f1").2
        = .error { status := 404, detail := "File not found" } :=
  release_idempotency_amended startState regFR "f1" (by decide)
